import Mathlib

/-!
Verification of the gPodder Spotify extension (src/spotify.py) against its
natural-language specification.  Python code is shallowly embedded: dicts of
known shape become structures, machine-level time is an `Int` parameter,
Python exceptions become `Except PyErr`, and external capabilities (the HTTP
transport, the random-token source `secrets.token_urlsafe`, `time.mktime`)
become explicit function or value parameters.
-/

namespace Spotify

/-- Python runtime errors that the embedded code can raise. -/
inductive PyErr where
  | typeError
  | nameError
  | valueError
  | indexError
  deriving DecidableEq, Repr

/-- The user credential dict persisted under the cache key user.
Embeds the dict mutated by SpotifyCacheHandler.set_user_info: each field is
absent (`none`) or present.  `expires_at` holds the absolute expiry time in
integer seconds. -/
structure UserCreds where
  access_token : Option String
  refresh_token : Option String
  scope : Option String
  expires_at : Option Int
  deriving DecidableEq, Repr

/-- A token-endpoint JSON response, as consumed by set_user_info:
recognized fields are merged into the stored credential when present. -/
structure TokenResp where
  access_token : Option String
  refresh_token : Option String
  scope : Option String
  expires_in : Option Int
  deriving DecidableEq, Repr

/-- SpotifyAPI.is_token_expired (src/spotify.py lines 190-213): expired when
the key expires_at is absent, otherwise when `now_seconds >= expires_at`.
`now` embeds `int(time.time())`. -/
def is_token_expired (user : UserCreds) (now : Int) : Bool :=
  match user.expires_at with
  | none => true
  | some e => now ≥ e

/-- SpotifyCacheHandler.set_user_info (src/spotify.py lines 441-462): merges
the recognized fields of the response into the stored credential; a present
`expires_in` (relative seconds) becomes the absolute `expires_at = now +
expires_in` using the current time `now` at the moment of the call. -/
def set_user_info (u : UserCreds) (info : TokenResp) (now : Int) : UserCreds :=
  { access_token := match info.access_token with
      | some t => some t
      | none => u.access_token
    refresh_token := match info.refresh_token with
      | some t => some t
      | none => u.refresh_token
    scope := match info.scope with
      | some s => some s
      | none => u.scope
    expires_at := match info.expires_in with
      | some e => some (now + e)
      | none => u.expires_at }

/-- The `limit` computation of SpotifyAPI.get_show_episodes (src/spotify.py
lines 117-123): 50 when `max_episodes == 0`, else `max(1, min(50,
max_episodes))`. -/
def episodesLimit (max_episodes : Int) : Int :=
  if max_episodes = 0 then 50 else max 1 (min 50 max_episodes)

/-- The process-lifetime OAuth session state: the class attributes
SpotifyAPI._verifier and SpotifyAPI._oauth_state. -/
structure OAuthTemp where
  verifier : Option String
  oauth_state : Option String
  deriving DecidableEq, Repr

/-- SpotifyAPI.generate_code_verifier (src/spotify.py lines 255-273): returns
the cached verifier when one exists, else caches and returns a freshly drawn
random token.  The draw of `secrets.token_urlsafe(nbytes = 64)` is embedded
as the explicit parameter `fresh`.  Returns the value and the updated session
state. -/
def generate_code_verifier (t : OAuthTemp) (fresh : String) :
    String × OAuthTemp :=
  match t.verifier with
  | some v => (v, t)
  | none => (fresh, { t with verifier := some fresh })

/-- SpotifyAPI.generate_state (src/spotify.py lines 276-292): returns the
cached state when one exists, else caches and returns a freshly drawn random
token (`secrets.token_urlsafe(nbytes = 16)` embedded as `fresh`). -/
def generate_state (t : OAuthTemp) (fresh : String) : String × OAuthTemp :=
  match t.oauth_state with
  | some s => (s, t)
  | none => (fresh, { t with oauth_state := some fresh })

/-- SpotifyAPI.reset_oauth_temp_data (src/spotify.py lines 335-340): clears
both the verifier and the state. -/
def reset_oauth_temp_data : OAuthTemp :=
  { verifier := none, oauth_state := none }

/-- SpotifyAPI.request_access_token (src/spotify.py lines 295-332): exchanges
the authorization code for a token (the HTTP transport's decoded response is
the parameter `resp`), persists it via set_user_info, then clears the OAuth
temp data.  Returns the updated credential and session state. -/
def request_access_token (creds : UserCreds) (resp : TokenResp) (now : Int)
    (_t : OAuthTemp) : UserCreds × OAuthTemp :=
  (set_user_info creds resp now, reset_oauth_temp_data)

/-- The parsed query string of an OAuth redirect URI, as seen by
gPodderExtension._handle_oauth_redirect after `parse_qs`.  Each field holds
the first value of the parameter when present.  `parse_qs` drops parameters
with blank values, so a present value is a non-empty string in Python;
truthiness is nevertheless modelled faithfully below. -/
structure OAuthQuery where
  state : Option String
  error : Option String
  code : Option String
  deriving DecidableEq, Repr

/-- gPodderExtension._handle_oauth_redirect (src/spotify.py lines 706-743).
Returns `.ok (exchanged, session, creds)` where `exchanged` records whether a
token exchange (request_access_token) was performed, or `.error .nameError`
when the handler raises UnboundLocalError: after a valid state with no error
parameter, the local `authorization_code` is only assigned inside
`if 'code' in query`, yet is read unconditionally by `if authorization_code`.
`freshState` embeds the random draw inside generate_state, `resp`/`now` the
transport response and clock consumed by request_access_token. -/
def handle_oauth_redirect (q : OAuthQuery) (t : OAuthTemp)
    (freshState : String) (creds : UserCreds) (resp : TokenResp) (now : Int) :
    Except PyErr (Bool × OAuthTemp × UserCreds) :=
  let checked : Bool × OAuthTemp :=
    match q.state with
    | some s =>
        let gen := generate_state t freshState
        (s = gen.1, gen.2)
    | none => (false, t)
  let is_valid : Bool := checked.1 && q.error.isNone
  let t1 := checked.2
  if is_valid = false then
    .ok (false, t1, creds)
  else
    match q.code with
    | some c =>
        if c ≠ "" then
          let r := request_access_token creds resp now t1
          .ok (true, r.2, r.1)
        else
          .ok (false, t1, creds)
    | none => .error .nameError

/-- A JSON value, the shape of data read from and written to the cache file
by json.load / json.dump.  Numbers are embedded as integers (the cache only
ever holds integers). -/
inductive JVal where
  | null : JVal
  | bool : Bool → JVal
  | num : Int → JVal
  | str : String → JVal
  | arr : List JVal → JVal
  | obj : List (String × JVal) → JVal

/-- A Python dict with string keys, the shape of the show-info payloads kept
under the cache key podcasts. -/
abbrev PyDict := List (String × JVal)

/-- First-match association lookup: Python `d[k]`-style access on a dict,
returning none when the key is absent. -/
def dictGet (d : List (String × α)) (k : String) : Option α :=
  match d with
  | [] => none
  | (k0, v0) :: rest => if k0 = k then some v0 else dictGet rest k

/-- Python `dict.pop(k, None)`: removes the entry for `k` when present
(dict keys are unique, so dropping every pair with key `k` coincides). -/
def dictPop (d : List (String × α)) (k : String) : List (String × α) :=
  match d with
  | [] => []
  | (k0, v0) :: rest =>
      if k0 = k then dictPop rest k else (k0, v0) :: dictPop rest k

/-- Python `d[k] = v` on a dict: replaces the existing entry in place, else
appends a new one. -/
def dictSet (d : List (String × α)) (k : String) (v : α) :
    List (String × α) :=
  match d with
  | [] => [(k, v)]
  | (k0, v0) :: rest =>
      if k0 = k then (k, v) :: rest else (k0, v0) :: dictSet rest k v

/-- SpotifyCacheHandler.set_podcast_info (src/spotify.py lines 423-438):
deep-copies the info dict (pure values need no copy), pops the keys
available_markets and episodes when present, and stores the result under
`show_id`. -/
def set_podcast_info (podcasts : List (String × PyDict)) (show_id : String)
    (info : PyDict) : List (String × PyDict) :=
  let info_copy := dictPop (dictPop info "available_markets") "episodes"
  dictSet podcasts show_id info_copy

/-- SpotifyCacheHandler.get_podcast (src/spotify.py lines 362-376): returns
the cached dict for `show_id`, or none. -/
def get_podcast (podcasts : List (String × PyDict)) (show_id : String) :
    Option PyDict :=
  dictGet podcasts show_id

/-- Python truthiness of a JSON value: None, False, 0, the empty string and
the empty containers are falsy. -/
def pyTruthy : JVal → Bool
  | .null => false
  | .bool b => b
  | .num n => n != 0
  | .str s => s != ""
  | .arr xs => !xs.isEmpty
  | .obj kvs => !kvs.isEmpty

/-- Does the character list `s` start with `pat`? -/
def startsWithList (s pat : List Char) : Bool :=
  match pat, s with
  | [], _ => true
  | _ :: _, [] => false
  | p :: ps, c :: cs => p == c && startsWithList cs ps

/-- Does `pat` occur as a contiguous sublist of `s`?  Python substring
membership `pat in s` on strings. -/
def containsSub (s pat : List Char) : Bool :=
  match s with
  | [] => pat.isEmpty
  | _ :: rest => startsWithList s pat || containsSub rest pat

/-- Python `==` between a JSON value and a string: true only for an equal
string (cross-type equality is False, never an error). -/
def jEqStr (v : JVal) (key : String) : Bool :=
  match v with
  | .str s => s == key
  | _ => false

/-- Python `key in v`: key membership for a dict, element membership for a
list, substring test for a string; TypeError for None, booleans and
numbers. -/
def pyContains (key : String) : JVal → Except PyErr Bool
  | .obj kvs => .ok (kvs.any (fun kv => kv.1 == key))
  | .arr xs => .ok (xs.any (fun v => jEqStr v key))
  | .str s => .ok (containsSub s.data key.data)
  | .null => .error .typeError
  | .bool _ => .error .typeError
  | .num _ => .error .typeError

/-- Python `v[key] = newv`: item assignment, defined for dicts only;
TypeError on every other JSON value (lists reject string indices, strings
and scalars do not support item assignment). -/
def pySetKey (v : JVal) (key : String) (newv : JVal) : Except PyErr JVal :=
  match v with
  | .obj kvs => .ok (.obj (dictSet kvs key newv))
  | _ => .error .typeError

/-- The possible file-system outcomes when SpotifyCacheHandler.load opens
its cache file: the file is missing; reading or json-parsing it fails (the
bare except, covering unreadable files and invalid JSON); or it parses to a
JSON document. -/
inductive FsOutcome where
  | missing : FsOutcome
  | readable : Option JVal → FsOutcome

/-- SpotifyCacheHandler.load (src/spotify.py lines 389-410): reads the cache
file (missing file or any read/parse failure leaves cache_info = None), maps
a falsy cache_info to the empty dict, then inserts the keys podcasts and
user with empty-dict defaults when absent — the two membership tests and
item assignments run outside any try block, so they can raise. -/
def load (fs : FsOutcome) : Except PyErr JVal := do
  let ci0 : JVal :=
    match fs with
    | .missing => .null
    | .readable none => .null
    | .readable (some j) => j
  let ci1 := if pyTruthy ci0 then ci0 else .obj []
  let hasP ← pyContains "podcasts" ci1
  let ci2 ← if hasP then pure ci1 else pySetKey ci1 "podcasts" (.obj [])
  let hasU ← pyContains "user" ci2
  if hasU then pure ci2 else pySetKey ci2 "user" (.obj [])

/-- Python str.replace(pat, rep) over character lists, for the non-empty
patterns used by extract_show_id: scan left to right, replacing each
occurrence of `pat` and resuming after it.  `fuel` bounds the recursion;
with `fuel ≥ s.length` (as supplied by pyReplace) it never runs out. -/
def pyReplaceFuel (fuel : Nat) (pat rep : List Char) (s : List Char) :
    List Char :=
  match fuel, s with
  | 0, s => s
  | _ + 1, [] => []
  | fuel + 1, c :: rest =>
      if pat ≠ [] ∧ startsWithList (c :: rest) pat = true then
        rep ++ pyReplaceFuel fuel pat rep (rest.drop (pat.length - 1))
      else
        c :: pyReplaceFuel fuel pat rep rest

/-- Python str.replace(pat, rep) for a non-empty pattern. -/
def pyReplace (pat rep s : List Char) : List Char :=
  pyReplaceFuel s.length pat rep s

/-- The canonical public show-URL prefix of extract_show_id. -/
def showUrlStart : List Char := "https://open.spotify.com/show/".data

/-- An arbitrary Python value handed to extract_show_id: a string, or
anything that is not a string (rejected by the isinstance check). -/
inductive PyValue where
  | str : String → PyValue
  | nonStr : PyValue

/-- SpotifyFeed.extract_show_id (src/spotify.py lines 669-689): None for a
non-string; None when the URL does not start with the canonical show-URL
start; otherwise deletes every occurrence of that start and every slash
(str.replace replaces all occurrences) and returns the remainder, or None
when nothing remains. -/
def extract_show_id (url : PyValue) : Option (List Char) :=
  match url with
  | .nonStr => none
  | .str u =>
      if startsWithList u.data showUrlStart = false then none
      else
        let sid1 := pyReplace showUrlStart [] u.data
        let sid2 := pyReplace ['/'] [] sid1
        if sid2.length < 1 then none else some sid2

/-- One raw episode object of the paginated episodes response, restricted to
the fields get_new_episodes reads.  Fields read with dict.get defaults
(description, duration_ms) are optional; the rest are accessed directly and
always present in the upstream schema. -/
structure EpisodeJson where
  id : String
  release_date : String
  duration_ms : Option Int
  description : Option String
  name : String
  external_urls_spotify : String
  deriving DecidableEq, Repr

/-- The decoded episodes-endpoint response envelope: its items list.  The
transport capability is assumed to deliver a well-formed envelope. -/
structure ApiResponse where
  items : List EpisodeJson
  deriving Repr

/-- SpotifyAPI.do_api_request (src/spotify.py lines 56-102): returns None
when no token is available, else performs the GET (the transport is the
parameter `http`) and returns the decoded response. -/
def do_api_request (token : Option String) (http : String → ApiResponse)
    (url_path : String) : Option ApiResponse :=
  match token with
  | none => none
  | some _ => some (http url_path)

/-- SpotifyAPI.get_show_episodes (src/spotify.py lines 105-127): builds the
episodes URL with the clamped limit and subscripts the result of
do_api_request with the key items unconditionally — when do_api_request
returned None, `None['items']` raises a TypeError. -/
def get_show_episodes (token : Option String) (http : String → ApiResponse)
    (show_id : String) (max_episodes : Int) :
    Except PyErr (List EpisodeJson) :=
  let url := show_id ++ "/episodes?limit=" ++ toString (episodesLimit max_episodes)
  match do_api_request token http url with
  | none => .error .typeError
  | some r => .ok r.items

/-- Python str.split(sep) for a one-character separator. -/
def splitOnChar (c : Char) : List Char → List (List Char)
  | [] => [[]]
  | x :: rest =>
      let r := splitOnChar c rest
      if x == c then [] :: r
      else
        match r with
        | [] => [[x]]
        | h :: t => (x :: h) :: t

def digitsValAux (acc : Nat) : List Char → Option Nat
  | [] => some acc
  | c :: rest =>
      if '0' ≤ c ∧ c ≤ '9' then
        digitsValAux (acc * 10 + (c.toNat - '0'.toNat)) rest
      else none

/-- The value of a non-empty all-digit character list, else none. -/
def digitsVal (l : List Char) : Option Nat :=
  match l with
  | [] => none
  | _ => digitsValAux 0 l

/-- Python int(s) as applied to the release-date components: an optional
minus sign followed by decimal digits; anything else raises ValueError. -/
def pyInt (s : List Char) : Except PyErr Int :=
  match s with
  | '-' :: rest =>
      match digitsVal rest with
      | some n => .ok (-(n : Int))
      | none => .error .valueError
  | l =>
      match digitsVal l with
      | some n => .ok ((n : Int))
      | none => .error .valueError

/-- Python `l[i]` on a list: IndexError when out of range. -/
def pyIndex (l : List α) (i : Nat) : Except PyErr α :=
  match l.get? i with
  | some x => .ok x
  | none => .error .indexError

/-- The field dict passed to channel.episode_factory for one new episode
(src/spotify.py lines 623-633).  `total_time` is a rational because Python
`duration_ms / 1000` is true division. -/
structure EpisodeRec where
  description : String
  file_size : Int
  guid : String
  link : String
  mime_type : String
  published : Int
  title : String
  total_time : ℚ
  url : String
  deriving DecidableEq, Repr

/-- SpotifyFeed.get_new_episodes (src/spotify.py lines 599-637) given the
fetched episode list: records every episode id into the seen-guid list, and
for each id not in existing_guids parses the release date (splitting on the
dash, converting each component with int, raising on malformed input) and
builds the episode record, with `published = mktime y m d` where the
parameter `mktime` embeds `time.mktime` applied to the local-midnight tuple
of that day. -/
def get_new_episodes (mktime : Int → Int → Int → Int)
    (episodes : List EpisodeJson) (existing_guids : List String) :
    Except PyErr (List EpisodeRec × List String) :=
  match episodes with
  | [] => .ok ([], [])
  | e :: rest =>
      if existing_guids.contains e.id then
        match get_new_episodes mktime rest existing_guids with
        | .error err => .error err
        | .ok (ns, gs) => .ok (ns, e.id :: gs)
      else
        match pyIndex (splitOnChar '-' e.release_date.data) 0 with
        | .error err => .error err
        | .ok ry =>
        match pyInt ry with
        | .error err => .error err
        | .ok y =>
        match pyIndex (splitOnChar '-' e.release_date.data) 1 with
        | .error err => .error err
        | .ok rm =>
        match pyInt rm with
        | .error err => .error err
        | .ok mo =>
        match pyIndex (splitOnChar '-' e.release_date.data) 2 with
        | .error err => .error err
        | .ok rdd =>
        match pyInt rdd with
        | .error err => .error err
        | .ok d =>
        let newEpisode : EpisodeRec :=
          { description := e.description.getD ""
            file_size := -1
            guid := e.id
            link := e.external_urls_spotify
            mime_type := "text/html"
            published := mktime y mo d
            title := e.name
            total_time := ((e.duration_ms.getD 0 : Int) : ℚ) / 1000
            url := e.external_urls_spotify }
        match get_new_episodes mktime rest existing_guids with
        | .error err => .error err
        | .ok (ns, gs) => .ok (newEpisode :: ns, e.id :: gs)

end Spotify

open Spotify

/-- C1: For every credential dict, is_token_expired returns true when the key
expires_at is absent, and otherwise returns true exactly when the current time
in integer seconds is greater than or equal to expires_at (the boundary
`now = expires_at` counts as expired). -/
theorem c1_is_token_expired_spec (u : UserCreds) (now : Int) :
    (u.expires_at = none → is_token_expired u now = true) ∧
    (∀ e : Int, u.expires_at = some e →
      (is_token_expired u now = true ↔ now ≥ e)) := by
  constructor
  · intro h
    simp [is_token_expired, h]
  · intro e h
    simp [is_token_expired, h]

/-- Witness for C1 at the boundary: with expires_at = 100 and now = 100 the
token counts as expired. -/
theorem c1_is_token_expired_spec_witness :
    (UserCreds.mk none none none (some 100)).expires_at = some 100 ∧
      (is_token_expired (UserCreds.mk none none none (some 100)) 100 = true ↔
        (100 : Int) ≥ 100) :=
  ⟨rfl, (c1_is_token_expired_spec (UserCreds.mk none none none (some 100)) 100).2
    100 rfl⟩

/-- C7: for every integer max_episodes, the requested limit lies in [1, 50];
it is 50 when max_episodes is 0, and otherwise max_episodes clamped below by 1
and above by 50. -/
theorem c7_episodes_limit_clamped (m : Int) :
    (1 ≤ episodesLimit m ∧ episodesLimit m ≤ 50) ∧
    (m = 0 → episodesLimit m = 50) ∧
    (m ≠ 0 → episodesLimit m = max 1 (min 50 m)) := by
  unfold episodesLimit
  by_cases h : m = 0 <;> simp [h] <;> omega


/-- Witness for C7 at max_episodes = 70: the limit is clamped into [1, 50]
and equals max 1 (min 50 70). -/
theorem c7_episodes_limit_clamped_witness :
    (1 ≤ episodesLimit 70 ∧ episodesLimit 70 ≤ 50) ∧
      ((70 : Int) ≠ 0 → episodesLimit 70 = max 1 (min 50 70)) :=
  ⟨(c7_episodes_limit_clamped 70).1, (c7_episodes_limit_clamped 70).2.2⟩

theorem dictGet_dictSet_self (p : List (String × α)) (k : String)
    (v : α) : dictGet (dictSet p k v) k = some v := by
  induction p with
  | nil => simp [dictSet, dictGet]
  | cons kv rest ih =>
      by_cases h : kv.1 = k
      · simp [dictSet, dictGet, h]
      · simpa [dictSet, dictGet, h] using ih

theorem dictGet_dictSet_other (p : List (String × α)) (k k' : String)
    (v : α) (h : k' ≠ k) :
    dictGet (dictSet p k v) k' = dictGet p k' := by
  induction p with
  | nil => simp [dictSet, dictGet, Ne.symm h]
  | cons kv rest ih =>
      by_cases hk : kv.1 = k
      · simp [dictSet, dictGet, hk, Ne.symm h]
      · simp [dictSet, dictGet, hk, ih]

theorem dictAny_eq_isSome (kvs : List (String × α)) (k : String) :
    (kvs.any (fun kv => kv.1 == k)) = (dictGet kvs k).isSome := by
  induction kvs with
  | nil => rfl
  | cons kv rest ih =>
      by_cases h : kv.1 = k
      · simp [dictGet, h]
      · have hb : (kv.1 == k) = false := by simp [h]
        simp [dictGet, h, hb, ih]

theorem dictGet_dictPop_self (d : PyDict) (k : String) :
    dictGet (dictPop d k) k = none := by
  induction d with
  | nil => rfl
  | cons kv rest ih =>
      by_cases h : kv.1 = k
      · simpa [dictPop, h] using ih
      · simpa [dictPop, dictGet, h] using ih

theorem dictGet_dictPop_other (d : PyDict) (k k' : String) (h : k' ≠ k) :
    dictGet (dictPop d k) k' = dictGet d k' := by
  induction d with
  | nil => rfl
  | cons kv rest ih =>
      by_cases hk : kv.1 = k
      · have hk' : kv.1 ≠ k' := fun hc => h (hc.symm.trans hk)
        simpa [dictPop, dictGet, hk, hk', Ne.symm h] using ih
      · by_cases hk' : kv.1 = k'
        · simp [dictPop, dictGet, hk, hk', h]
        · simpa [dictPop, dictGet, hk, hk', h] using ih

/-- C2: when the redirect query carries a state parameter different from the
state generated in this session (the cached SpotifyAPI._oauth_state), the
handler performs no token exchange and leaves both the session state and the
stored credentials unchanged. -/
theorem c2_state_mismatch_no_exchange (q : OAuthQuery) (t : OAuthTemp)
    (freshState st s : String) (creds : UserCreds) (resp : TokenResp)
    (now : Int) (hsession : t.oauth_state = some st) (hq : q.state = some s)
    (hne : s ≠ st) :
    handle_oauth_redirect q t freshState creds resp now =
      .ok (false, t, creds) := by
  unfold handle_oauth_redirect generate_state
  simp [hq, hsession, hne]

/-- Witness for C2: a concrete redirect whose state "evil" differs from the
session state "good" yields no exchange and untouched credentials. -/
theorem c2_state_mismatch_no_exchange_witness :
    (OAuthTemp.mk (some "ver") (some "good")).oauth_state = some "good" ∧
      (OAuthQuery.mk (some "evil") none (some "c")).state = some "evil" ∧
      handle_oauth_redirect (OAuthQuery.mk (some "evil") none (some "c"))
          (OAuthTemp.mk (some "ver") (some "good")) "f"
          (UserCreds.mk none none none none)
          (TokenResp.mk (some "at") none none (some 3600)) 0 =
        .ok (false, OAuthTemp.mk (some "ver") (some "good"),
          UserCreds.mk none none none none) :=
  ⟨rfl, rfl,
    c2_state_mismatch_no_exchange _ _ "f" "good" "evil" _ _ 0 rfl rfl
      (by decide)⟩

/-- C3 (code bug): a redirect with a matching state, no error parameter and
no code parameter does not log-and-abort cleanly; the handler raises
UnboundLocalError (embedded as `.error .nameError`), because the local
`authorization_code` is read without ever having been assigned.  Evaluated at
the concrete failing input. -/
theorem c3_missing_code_raises :
    handle_oauth_redirect (OAuthQuery.mk (some "st1") none none)
        (OAuthTemp.mk (some "ver") (some "st1")) "f"
        (UserCreds.mk none none none none)
        (TokenResp.mk (some "at") none none (some 3600)) 0 =
      .error .nameError := by
  rfl

/-- C6: generate_code_verifier and generate_state are idempotent within one
authorization attempt (two consecutive calls return the same value), and
after request_access_token completes the next call of each returns the newly
drawn token, which differs from the previous one whenever the random source
yields a different token. -/
theorem c6_oauth_temp_lifecycle (t : OAuthTemp)
    (f1 f2 g1 g2 f3 g3 : String) (creds : UserCreds) (resp : TokenResp)
    (now : Int)
    (hf : f3 ≠ (generate_code_verifier t f1).1)
    (hg : g3 ≠ (generate_state (generate_code_verifier
      (generate_code_verifier t f1).2 f2).2 g1).1) :
    (generate_code_verifier (generate_code_verifier t f1).2 f2).1 =
        (generate_code_verifier t f1).1 ∧
      (generate_state (generate_state (generate_code_verifier
          (generate_code_verifier t f1).2 f2).2 g1).2 g2).1 =
        (generate_state (generate_code_verifier
          (generate_code_verifier t f1).2 f2).2 g1).1 ∧
      (generate_code_verifier
          (request_access_token creds resp now
            (generate_state (generate_state (generate_code_verifier
              (generate_code_verifier t f1).2 f2).2 g1).2 g2).2).2 f3).1 =
        f3 ∧
      (generate_state (generate_code_verifier
          (request_access_token creds resp now
            (generate_state (generate_state (generate_code_verifier
              (generate_code_verifier t f1).2 f2).2 g1).2 g2).2).2 f3).2
          g3).1 = g3 ∧
      (generate_code_verifier
          (request_access_token creds resp now
            (generate_state (generate_state (generate_code_verifier
              (generate_code_verifier t f1).2 f2).2 g1).2 g2).2).2 f3).1 ≠
        (generate_code_verifier t f1).1 ∧
      (generate_state (generate_code_verifier
          (request_access_token creds resp now
            (generate_state (generate_state (generate_code_verifier
              (generate_code_verifier t f1).2 f2).2 g1).2 g2).2).2 f3).2
          g3).1 ≠
        (generate_state (generate_code_verifier
          (generate_code_verifier t f1).2 f2).2 g1).1 := by
  rcases t with ⟨v, s⟩
  cases v <;> cases s <;>
    simp_all [generate_code_verifier, generate_state, request_access_token,
      reset_oauth_temp_data]

/-- Witness for C6 starting from a cleared session with distinct random
draws "a", "c" before the exchange and "b", "d" after it. -/
theorem c6_oauth_temp_lifecycle_witness :
    ("b" ≠ (generate_code_verifier (OAuthTemp.mk none none) "a").1) ∧
      ("d" ≠ (generate_state (generate_code_verifier
        (generate_code_verifier (OAuthTemp.mk none none) "a").2 "x").2
        "c").1) ∧
      (generate_code_verifier (generate_code_verifier
          (OAuthTemp.mk none none) "a").2 "x").1 =
        (generate_code_verifier (OAuthTemp.mk none none) "a").1 :=
  ⟨by decide, by decide,
    (c6_oauth_temp_lifecycle (OAuthTemp.mk none none) "a" "x" "c" "y" "b" "d"
      (UserCreds.mk none none none none)
      (TokenResp.mk none none none none) 0 (by decide) (by decide)).1⟩

theorem load_readable_obj_nonempty (kvs : List (String × JVal))
    (h : kvs ≠ []) :
    ∃ r, load (.readable (some (.obj kvs))) = .ok (.obj r) ∧
      (dictGet r "podcasts").isSome = true ∧
      (dictGet r "user").isSome = true := by
  have htr : pyTruthy (JVal.obj kvs) = true := by simp [pyTruthy, h]
  by_cases hP : (dictGet kvs "podcasts").isSome = true
  · by_cases hU : (dictGet kvs "user").isSome = true
    · refine ⟨kvs, ?_, hP, hU⟩
      simp [load, htr, pyContains, dictAny_eq_isSome, hP, hU, Bind.bind, Except.bind, pure, Except.pure]
    · refine ⟨dictSet kvs "user" (.obj []), ?_, ?_, ?_⟩
      · simp [load, htr, pyContains, dictAny_eq_isSome, hP, hU, pySetKey, Bind.bind, Except.bind, pure, Except.pure]
      · rw [dictGet_dictSet_other _ _ _ _ (by decide)]
        exact hP
      · rw [dictGet_dictSet_self]
        rfl
  · by_cases hU : (dictGet kvs "user").isSome = true
    · refine ⟨dictSet kvs "podcasts" (.obj []), ?_, ?_, ?_⟩
      · simp [load, htr, pyContains, dictAny_eq_isSome, hP, pySetKey,
          dictGet_dictSet_other _ "podcasts" "user" _ (by decide), hU,
          Bind.bind, Except.bind, pure, Except.pure]
      · rw [dictGet_dictSet_self]
        rfl
      · rw [dictGet_dictSet_other _ _ _ _ (by decide)]
        exact hU
    · refine ⟨dictSet (dictSet kvs "podcasts" (.obj [])) "user" (.obj []),
        ?_, ?_, ?_⟩
      · simp [load, htr, pyContains, dictAny_eq_isSome, hP, pySetKey,
          dictGet_dictSet_other _ "podcasts" "user" _ (by decide), hU,
          Bind.bind, Except.bind, pure, Except.pure]
      · rw [dictGet_dictSet_other _ _ _ _ (by decide), dictGet_dictSet_self]
        rfl
      · rw [dictGet_dictSet_self]
        rfl

/-- C4 (corrected): load terminates without raising, with podcasts and user
present (empty-map defaults when they were absent), for a missing file, an
unreadable or unparseable file, and content parsing to a falsy value or to
a dict — but not for every content: a truthy non-dict JSON document makes
the membership test or item assignment raise (see the counterexample). -/
theorem c4_load_tolerant_amended (fs : FsOutcome)
    (h : fs = FsOutcome.missing ∨ fs = FsOutcome.readable none ∨
      ∃ j, fs = FsOutcome.readable (some j) ∧
        (pyTruthy j = false ∨ ∃ kvs, j = JVal.obj kvs)) :
    ∃ r, load fs = .ok (.obj r) ∧
      (dictGet r "podcasts").isSome = true ∧
      (dictGet r "user").isSome = true := by
  have hdefault : ∀ j : JVal, pyTruthy j = false →
      load (.readable (some j)) =
        .ok (.obj [("podcasts", .obj []), ("user", .obj [])]) := by
    intro j hj
    simp [load, hj, pyContains, pySetKey, dictSet, Bind.bind, Except.bind, pure, Except.pure, jEqStr, containsSub, startsWithList]
  rcases h with h | h | ⟨j, hj, hfalsy | ⟨kvs, hobj⟩⟩
  · subst h
    exact ⟨[("podcasts", .obj []), ("user", .obj [])], rfl, rfl, rfl⟩
  · subst h
    exact ⟨[("podcasts", .obj []), ("user", .obj [])], rfl, rfl, rfl⟩
  · subst hj
    exact ⟨[("podcasts", .obj []), ("user", .obj [])], hdefault j hfalsy,
      rfl, rfl⟩
  · subst hj
    subst hobj
    rcases eq_or_ne kvs [] with he | he
    · subst he
      exact ⟨[("podcasts", .obj []), ("user", .obj [])],
        hdefault _ (by rfl), rfl, rfl⟩
    · exact load_readable_obj_nonempty kvs he

/-- Witness for C4 (amended) at a readable file whose document is the dict
holding only a name key: both defaults get inserted. -/
theorem c4_load_tolerant_amended_witness :
    (FsOutcome.readable (some (.obj [("name", JVal.str "x")])) =
        FsOutcome.missing ∨
      FsOutcome.readable (some (.obj [("name", JVal.str "x")])) =
        FsOutcome.readable none ∨
      ∃ j, FsOutcome.readable (some (.obj [("name", JVal.str "x")])) =
          FsOutcome.readable (some j) ∧
        (pyTruthy j = false ∨ ∃ kvs, j = JVal.obj kvs)) ∧
      ∃ r, load (FsOutcome.readable
            (some (.obj [("name", JVal.str "x")]))) = .ok (.obj r) ∧
        (dictGet r "podcasts").isSome = true ∧
        (dictGet r "user").isSome = true :=
  ⟨Or.inr (Or.inr ⟨.obj [("name", JVal.str "x")], rfl,
      Or.inr ⟨[("name", JVal.str "x")], rfl⟩⟩),
    c4_load_tolerant_amended _ (Or.inr (Or.inr ⟨.obj [("name", JVal.str "x")],
      rfl, Or.inr ⟨[("name", JVal.str "x")], rfl⟩⟩))⟩

/-- C4 counterexample: a readable cache file whose content is the valid JSON
document [1] — a truthy non-dict — makes load raise a TypeError at the item
assignment, refuting termination-without-raising for every content. -/
theorem c4_load_counterexample :
    load (FsOutcome.readable (some (.arr [.num 1]))) =
      .error .typeError := by
  rfl

theorem startsWithList_append (xs ys : List Char) :
    startsWithList (xs ++ ys) xs = true := by
  induction xs with
  | nil => simp [startsWithList]
  | cons x xs ih => simp [startsWithList, ih]

theorem count_le_of_startsWith (s pat : List Char) (c : Char)
    (h : startsWithList s pat = true) : pat.count c ≤ s.count c := by
  induction pat generalizing s with
  | nil => simp
  | cons p ps ih =>
      cases s with
      | nil => simp [startsWithList] at h
      | cons q rest =>
          simp only [startsWithList, Bool.and_eq_true, beq_iff_eq] at h
          obtain ⟨hp, hrest⟩ := h
          subst hp
          have hc := ih rest hrest
          simp only [List.count_cons]
          omega

theorem pyReplaceFuel_no_occur (c : Char) (pat rep : List Char) :
    ∀ (fuel : Nat) (s : List Char), s.count c < pat.count c →
      pyReplaceFuel fuel pat rep s = s := by
  intro fuel
  induction fuel with
  | zero =>
      intro s h
      cases s <;> rfl
  | succ n ih =>
      intro s h
      cases s with
      | nil => rfl
      | cons q rest =>
          have hrest : rest.count c < pat.count c := by
            have : rest.count c ≤ (q :: rest).count c := by
              simp only [List.count_cons]
              omega
            omega
          have hcond : ¬(pat ≠ [] ∧ startsWithList (q :: rest) pat = true) := by
            rintro ⟨-, hsw⟩
            have := count_le_of_startsWith (q :: rest) pat c hsw
            omega
          simp only [pyReplaceFuel, if_neg hcond]
          rw [ih rest hrest]

theorem pyReplace_no_occur (c : Char) (pat rep s : List Char)
    (h : s.count c < pat.count c) : pyReplace pat rep s = s :=
  pyReplaceFuel_no_occur c pat rep s.length s h

theorem pyReplaceFuel_fuel_irrel (pat rep : List Char) :
    ∀ (f1 f2 : Nat) (s : List Char), s.length ≤ f1 → s.length ≤ f2 →
      pyReplaceFuel f1 pat rep s = pyReplaceFuel f2 pat rep s := by
  intro f1
  induction f1 with
  | zero =>
      intro f2 s h1 _
      have : s = [] := List.length_eq_zero.mp (Nat.le_zero.mp h1)
      subst this
      cases f2 <;> rfl
  | succ n ih =>
      intro f2 s h1 h2
      cases s with
      | nil => cases f2 <;> rfl
      | cons q rest =>
          cases f2 with
          | zero => simp at h2
          | succ m =>
              by_cases hcond : pat ≠ [] ∧ startsWithList (q :: rest) pat = true
              · simp only [pyReplaceFuel, if_pos hcond]
                have hlen : (rest.drop (pat.length - 1)).length ≤ rest.length :=
                  by simp [List.length_drop]
                have := ih m (rest.drop (pat.length - 1))
                  (by simp at h1; omega) (by simp at h2; omega)
                rw [this]
              · simp only [pyReplaceFuel, if_neg hcond]
                have := ih m rest (by simp at h1; omega) (by simp at h2; omega)
                rw [this]

theorem pyReplace_append_self (pat rep tail : List Char) (h : pat ≠ []) :
    pyReplace pat rep (pat ++ tail) = rep ++ pyReplace pat rep tail := by
  obtain ⟨p, ps, rfl⟩ : ∃ p ps, pat = p :: ps := by
    cases pat with
    | nil => exact absurd rfl h
    | cons p ps => exact ⟨p, ps, rfl⟩
  have hcond : (p :: ps ≠ []) ∧
      startsWithList (p :: (ps ++ tail)) (p :: ps) = true :=
    ⟨List.cons_ne_nil p ps, startsWithList_append (p :: ps) tail⟩
  show pyReplaceFuel ((p :: ps ++ tail).length) (p :: ps) rep
      (p :: (ps ++ tail)) = _
  simp only [pyReplaceFuel, List.length_cons, List.length_append, if_pos hcond]
  rw [show ps.length + 1 - 1 = ps.length from Nat.add_sub_cancel ps.length 1,
    List.drop_left]
  congr 1
  exact pyReplaceFuel_fuel_irrel (p :: ps) rep _ _ tail
    (by simp [List.length_append]) le_rfl

theorem pyReplaceFuel_single (c0 : Char) :
    ∀ (fuel : Nat) (s : List Char), s.length ≤ fuel →
      pyReplaceFuel fuel [c0] [] s = s.filter (fun c => c != c0) := by
  intro fuel
  induction fuel with
  | zero =>
      intro s h
      have : s = [] := List.length_eq_zero.mp (Nat.le_zero.mp h)
      subst this
      rfl
  | succ n ih =>
      intro s h
      cases s with
      | nil => rfl
      | cons q rest =>
          have hrest : rest.length ≤ n := by simp at h; omega
          by_cases hq : c0 = q
          · subst hq
            have hcond : ([c0] ≠ []) ∧
                startsWithList (c0 :: rest) [c0] = true := by
              refine ⟨by simp, ?_⟩
              simp [startsWithList]
            simp only [pyReplaceFuel, if_pos hcond, List.length_cons,
              List.length_nil, Nat.add_sub_cancel, List.drop_zero,
              List.nil_append]
            rw [ih rest hrest]
            simp [List.filter_cons]
          · have hcond : ¬(([c0] ≠ []) ∧
                startsWithList (q :: rest) [c0] = true) := by
              rintro ⟨-, hsw⟩
              simp [startsWithList] at hsw
              exact hq hsw
            simp only [pyReplaceFuel, if_neg hcond]
            rw [ih rest hrest]
            have : (q != c0) = true := by
              simp only [bne_iff_ne, ne_eq]
              exact fun hc => hq hc.symm
            simp [List.filter_cons, this]

theorem pyReplace_single (c0 : Char) (s : List Char) :
    pyReplace [c0] [] s = s.filter (fun c => c != c0) :=
  pyReplaceFuel_single c0 s.length s le_rfl

/-- C8 (corrected): for every non-empty slash-free id, the two canonical
show-URL shapes map to exactly that id; a non-string and a string not
starting with the canonical show-URL start map to None.  (The original
claim's universal None for every other string is refuted by
c8_extract_show_id_counterexample: a remainder with interior slashes is
returned with the slashes stripped instead of rejected.) -/
theorem c8_extract_show_id_amended :
    (∀ id : List Char, id ≠ [] → (∀ c ∈ id, c ≠ '/') →
      extract_show_id (.str ⟨showUrlStart ++ id⟩) = some id ∧
      extract_show_id (.str ⟨showUrlStart ++ id ++ ['/']⟩) = some id) ∧
    (∀ u : String, startsWithList u.data showUrlStart = false →
      extract_show_id (.str u) = none) ∧
    extract_show_id .nonStr = none := by
  have hcount : showUrlStart.count '/' = 4 := by decide
  have hne : showUrlStart ≠ [] := by decide
  refine ⟨?_, ?_, rfl⟩
  · intro id hid hslash
    have hid0 : id.count '/' = 0 :=
      List.count_eq_zero.mpr (fun hc => hslash '/' hc rfl)
    have hfilter : id.filter (fun c => c != '/') = id := by
      apply List.filter_eq_self.mpr
      intro c hc
      simp only [bne_iff_ne, ne_eq]
      exact hslash c hc
    have hlen : ¬(id.length < 1) := by
      have := List.length_pos.mpr hid
      omega
    constructor
    · have hstart : startsWithList (showUrlStart ++ id) showUrlStart = true :=
        startsWithList_append showUrlStart id
      have hrepl1 : pyReplace showUrlStart [] (showUrlStart ++ id) = id := by
        rw [pyReplace_append_self showUrlStart [] id hne, List.nil_append]
        exact pyReplace_no_occur '/' showUrlStart [] id (by omega)
      have hrepl2 : pyReplace ['/'] [] id = id := by
        rw [pyReplace_single]
        exact hfilter
      simp only [extract_show_id, String.data]
      rw [hstart]
      simp only [Bool.true_eq_false, if_false, hrepl1, hrepl2, if_neg hlen]
    · have hassoc : showUrlStart ++ id ++ ['/'] =
          showUrlStart ++ (id ++ ['/']) := by
        rw [List.append_assoc]
      have hstart : startsWithList (showUrlStart ++ (id ++ ['/']))
          showUrlStart = true := startsWithList_append showUrlStart _
      have hcnt : (id ++ ['/']).count '/' < showUrlStart.count '/' := by
        rw [List.count_append]
        simp [hid0, hcount]
      have hrepl1 : pyReplace showUrlStart [] (showUrlStart ++ (id ++ ['/'])) =
          id ++ ['/'] := by
        rw [pyReplace_append_self showUrlStart [] _ hne, List.nil_append]
        exact pyReplace_no_occur '/' showUrlStart [] _ hcnt
      have hrepl2 : pyReplace ['/'] [] (id ++ ['/']) = id := by
        rw [pyReplace_single, List.filter_append, hfilter]
        simp
      simp only [extract_show_id, String.data, hassoc]
      rw [hstart]
      simp only [Bool.true_eq_false, if_false, hrepl1, hrepl2, if_neg hlen]
  · intro u hu
    simp [extract_show_id, hu]

/-- Witness for C8 (amended) at id = "ab": both canonical URL shapes return
"ab". -/
theorem c8_extract_show_id_amended_witness :
    (['a', 'b'] ≠ ([] : List Char)) ∧ (∀ c ∈ ['a', 'b'], c ≠ '/') ∧
      extract_show_id (.str ⟨showUrlStart ++ ['a', 'b']⟩) =
        some ['a', 'b'] ∧
      extract_show_id (.str ⟨showUrlStart ++ ['a', 'b'] ++ ['/']⟩) =
        some ['a', 'b'] :=
  ⟨by decide, by decide,
    (c8_extract_show_id_amended.1 ['a', 'b'] (by decide) (by decide)).1,
    (c8_extract_show_id_amended.1 ['a', 'b'] (by decide) (by decide)).2⟩

/-- C8 counterexample: the string https://open.spotify.com/show/a/b is not of
the form show-URL-start followed by a slash-free id with an optional trailing
slash, yet extract_show_id returns "ab" — not the None the claim requires for
every string not of that form. -/
theorem c8_extract_show_id_counterexample :
    extract_show_id (.str "https://open.spotify.com/show/a/b") =
      some ['a', 'b'] := by
  decide

/-- C9: the single upstream episode e1 of 2023-05-10 with duration 65000 ms
and URL https://u, against an empty existing-guid list, yields exactly one
record with guid e1, total_time 65, published at the local midnight of
May 10 2023 (time.mktime of that tuple, embedded as mktime 2023 5 10), and
url = link = https://u — and the seen-guid list [e1]. -/
theorem c9_get_new_episodes_end_to_end (mktime : Int → Int → Int → Int) :
    get_new_episodes mktime
      [EpisodeJson.mk "e1" "2023-05-10" (some 65000) none "Ep" "https://u"]
      [] =
    .ok ([{ description := ""
            file_size := -1
            guid := "e1"
            link := "https://u"
            mime_type := "text/html"
            published := mktime 2023 5 10
            title := "Ep"
            total_time := 65
            url := "https://u" }], ["e1"]) := by
  have h : ((65000 : Int) : ℚ) / 1000 = 65 := by norm_num
  have base : get_new_episodes mktime
      [EpisodeJson.mk "e1" "2023-05-10" (some 65000) none "Ep" "https://u"]
      [] =
      .ok ([{ description := ""
              file_size := -1
              guid := "e1"
              link := "https://u"
              mime_type := "text/html"
              published := mktime 2023 5 10
              title := "Ep"
              total_time := ((65000 : Int) : ℚ) / 1000
              url := "https://u" }], ["e1"]) := rfl
  rw [base, h]

/-- C10: with no bearer token available, get_show_episodes does not return an
empty or None result — do_api_request returns None and the unconditional
subscript with items raises (a TypeError on None). -/
theorem c10_no_token_raises (http : String → ApiResponse) (show_id : String)
    (m : Int) :
    get_show_episodes none http show_id m = .error .typeError := rfl

/-- C5: for every show id and every info dict containing the keys
available_markets and episodes, set_podcast_info followed by get_podcast on
the same id returns a dict in which neither of those keys is present and
every other key maps to an unchanged value. -/
theorem c5_set_then_get_strips_big_fields (podcasts : List (String × PyDict))
    (show_id : String) (info : PyDict)
    (h1 : dictGet info "available_markets" ≠ none)
    (h2 : dictGet info "episodes" ≠ none) :
    ∃ d, get_podcast (set_podcast_info podcasts show_id info) show_id =
        some d ∧
      dictGet d "available_markets" = none ∧
      dictGet d "episodes" = none ∧
      ∀ k, k ≠ "available_markets" → k ≠ "episodes" →
        dictGet d k = dictGet info k := by
  refine ⟨dictPop (dictPop info "available_markets") "episodes", ?_, ?_, ?_, ?_⟩
  · exact dictGet_dictSet_self podcasts show_id _
  · rw [dictGet_dictPop_other _ _ _ (by decide)]
    exact dictGet_dictPop_self info "available_markets"
  · exact dictGet_dictPop_self _ "episodes"
  · intro k hk1 hk2
    rw [dictGet_dictPop_other _ _ _ hk2, dictGet_dictPop_other _ _ _ hk1]

/-- Witness for C5: a concrete info dict with both stripped keys and an
extra name key. -/
theorem c5_set_then_get_strips_big_fields_witness :
    (dictGet [("available_markets", JVal.arr []), ("episodes", JVal.arr []),
        ("name", JVal.str "N")] "available_markets" ≠ none) ∧
      (dictGet [("available_markets", JVal.arr []), ("episodes", JVal.arr []),
        ("name", JVal.str "N")] "episodes" ≠ none) ∧
      ∃ d, get_podcast (set_podcast_info [] "s"
          [("available_markets", JVal.arr []), ("episodes", JVal.arr []),
            ("name", JVal.str "N")]) "s" = some d ∧
        dictGet d "available_markets" = none ∧
        dictGet d "episodes" = none ∧
        ∀ k, k ≠ "available_markets" → k ≠ "episodes" →
          dictGet d k = dictGet [("available_markets", JVal.arr []),
            ("episodes", JVal.arr []), ("name", JVal.str "N")] k :=
  ⟨by simp [dictGet], by simp [dictGet],
    c5_set_then_get_strips_big_fields [] "s" _ (by simp [dictGet])
      (by simp [dictGet])⟩
